import Mathlib

/-!
Verification of the disk-layout engine of the RegicideOS installer.

The Python sources (`src/common.py`, `src/drive.py`, `src/installer.py`,
`src/legacy_installer.py`) are shallowly embedded below.  External tool
invocations are modelled as an inductive alphabet `Cmd`; the live system is an
oracle `Sys` assigning to every invocation a `Resp` (exit code and captured
stdout).  Python functions that can raise are embedded with `Option`, and the
procedures `partition_drive` / `format_drive` are embedded as trace builders
returning the ordered list of invocations they issue together with a success
flag (`false` = the Python code raised before completing).

Numeric conventions: byte counts are `Int`/`Nat`; the single floating-point
computation in the sources (`round(drive_size * (pct / 100), 0)`) is modelled
over exact rationals with Python's round-half-to-even semantics (`pyRound`).
String manipulation (`strip`, `splitlines`, single-character `replace`,
slicing) is modelled character-listwise; the decimal parses performed by
Python's `int(...)` are modelled for canonical decimal numerals.
-/

namespace Regicide

/-- ASCII whitespace stripped by Python's `bytes.strip()`. -/
def isPySpace (c : Char) : Bool :=
  c == ' ' || c == '\t' || c == '\n' || c == '\r' || c == '\x0b' || c == '\x0c'

/-- Strip leading and trailing ASCII whitespace from a character list. -/
def stripL (l : List Char) : List Char :=
  ((l.dropWhile isPySpace).reverse.dropWhile isPySpace).reverse

/-- Model of Python's `str.strip()` / `bytes.strip()`. -/
def pyStrip (s : String) : String :=
  ⟨stripL s.data⟩

/-- Split a character list on a separator character (keeping empty pieces). -/
def splitOnCharGo (sep : Char) (acc : List Char) : List Char → List (List Char)
  | [] => [acc.reverse]
  | x :: xs =>
      if x = sep then acc.reverse :: splitOnCharGo sep [] xs
      else splitOnCharGo sep (x :: acc) xs

/-- Split a character list on every occurrence of `sep`. -/
def splitOnChar (sep : Char) (l : List Char) : List (List Char) :=
  splitOnCharGo sep [] l

/-- Model of Python's `bytes.splitlines()` for newline-separated output: like
splitting on a newline, except that a trailing newline does not contribute a
final empty line and the empty string has no lines. -/
def pySplitlines (s : String) : List String :=
  let parts := splitOnChar '\n' s.data
  let parts := if parts.getLast? = some [] then parts.dropLast else parts
  parts.map (fun l => ⟨l⟩)

/-- Model of Python's `str.replace(a, b)` for a single-character pattern. -/
def replaceChar (a b : Char) (s : String) : String :=
  ⟨s.data.map (fun c => if c = a then b else c)⟩

/-- Numeric value of a decimal digit character. -/
def digitVal? (c : Char) : Option Nat :=
  if c.isDigit then some (c.toNat - 48) else none

/-- Accumulator loop of the decimal parser. -/
def parseDecGo (acc : Nat) : List Char → Option Nat
  | [] => some acc
  | c :: cs =>
      if c.isDigit then parseDecGo (acc * 10 + (c.toNat - 48)) cs else none

/-- Model of Python's `int(...)` on a canonical (non-empty, all-digit) decimal
numeral; `none` models the `ValueError` raised on any other input. -/
def parseDec : List Char → Option Nat
  | [] => none
  | c :: cs => parseDecGo 0 (c :: cs)

/-- String-level decimal parse. -/
def parseDecS (s : String) : Option Nat :=
  parseDec s.data

/-- The unit table of `human_to_bytes` (`drive.py` lines 66-76,
`installer.py` lines 143-152): binary multipliers for B, K, M, G, T, P;
`none` models the `KeyError` raised on any other unit suffix. -/
def unitMult (c : Char) : Option Nat :=
  match c with
  | 'B' => some 1
  | 'K' => some 1024
  | 'M' => some (1024 ^ 2)
  | 'G' => some (1024 ^ 3)
  | 'T' => some (1024 ^ 4)
  | 'P' => some (1024 ^ 5)
  | _ => none

/-- Embedding of `human_to_bytes(size)`: `int(size[:-1]) * sizes[size[-1]]`.
The result is `none` whenever the Python code raises (empty token, non-numeric
prefix, unknown unit letter). -/
def human_to_bytes (size : String) : Option Nat :=
  match size.data.getLast? with
  | none => none
  | some u =>
      match parseDec size.data.dropLast, unitMult u with
      | some n, some m => some (n * m)
      | _, _ => none

/-- Python's `round(x, 0)`: round half to even (banker's rounding), modelled on
exact rationals. -/
def pyRound (x : ℚ) : ℤ :=
  if x - ⌊x⌋ < 1 / 2 then ⌊x⌋
  else if 1 / 2 < x - ⌊x⌋ then ⌊x⌋ + 1
  else if 2 ∣ ⌊x⌋ then ⌊x⌋ else ⌊x⌋ + 1

/-- The three shapes a layout entry's `size` field can take: the `True`
sentinel (rest of the device), a percentage token `"<p>%"` (carrying the value
Python's `float(token[:-1])` parses), or any other string token, resolved by
`human_to_bytes`. -/
inductive PSize where
  | rest : PSize
  | pct : ℚ → PSize
  | abs : String → PSize
deriving DecidableEq

/-- The `format` field of a layout entry. -/
inductive Fmt where
  | vfat | ext4 | btrfs | lvm | luks
deriving DecidableEq

/-- One entry of a layout: the dictionaries of the `LAYOUTS` catalog.
`label` and `subvols` are optional (their keys may be absent); `vgname` is the
`name` key used by `lvm` entries; `lvs` is the nested logical-volume list of an
`lvm` entry, and `inside` holds the singleton list `[partition["inside"]]` that
`format_drive` recurses into for a `luks` entry. -/
inductive Layer where
  | mk : PSize → Option String → Fmt → String → String →
      Option (List String) → List Layer → List Layer → Layer

/-- Size field of a layer. -/
def Layer.size : Layer → PSize
  | .mk s _ _ _ _ _ _ _ => s

/-- Label field of a layer. -/
def Layer.label : Layer → Option String
  | .mk _ l _ _ _ _ _ _ => l

/-- Format field of a layer. -/
def Layer.fmt : Layer → Fmt
  | .mk _ _ f _ _ _ _ _ => f

/-- GPT type field of a layer. -/
def Layer.ptype : Layer → String
  | .mk _ _ _ t _ _ _ _ => t

/-- Volume-group name of an `lvm` layer. -/
def Layer.vgname : Layer → String
  | .mk _ _ _ _ v _ _ _ => v

/-- Subvolume list of a `btrfs` layer (`none` when the key is absent). -/
def Layer.subvols : Layer → Option (List String)
  | .mk _ _ _ _ _ sv _ _ => sv

/-- Logical volumes of an `lvm` layer. -/
def Layer.lvs : Layer → List Layer
  | .mk _ _ _ _ _ _ ls _ => ls

/-- The nested layer list a `luks` layer is formatted with. -/
def Layer.inside : Layer → List Layer
  | .mk _ _ _ _ _ _ _ i => i

/-- Sizes emitted into the sfdisk script by the partition loop of
`installer.py` / `legacy_installer.py` (lines 170-183 resp. 175-188):
one entry per layer, `none` when no `size=` field is emitted (the
remainder sentinel on EFI firmware), and the whole result `none` when
`human_to_bytes` raises on an absolute token.  `W` is `drive_size` and the
second argument is the `running_drive_size` accumulator (seeded by
`partition_sizes` at `drive_size - 1048576`). -/
def partSizes (efi : Bool) (W : ℤ) : ℤ → List PSize → Option (List (Option ℤ))
  | _, [] => some []
  | running, s :: rest =>
      match s with
      | .rest =>
          (partSizes efi W running rest).map
            (fun es => (if efi then none else some running) :: es)
      | .pct p =>
          let ps : ℤ := pyRound ((W : ℚ) * (p / 100))
          (partSizes efi W (running - ps) rest).map (fun es => some ps :: es)
      | .abs tok =>
          match human_to_bytes tok with
          | none => none
          | some n =>
              (partSizes efi W (running - (n : ℤ)) rest).map
                (fun es => some (n : ℤ) :: es)

/-- Sizes emitted by `partition_drive` of `installer.py` (the accumulator is
seeded at `drive_size - 1048576`, the 1 MiB BIOS-boot reservation). -/
def partition_sizes (efi : Bool) (W : ℤ) (sizes : List PSize) :
    Option (List (Option ℤ)) :=
  partSizes efi W (W - 1048576) sizes

/-- Sizes emitted by the partition loop of `drive.py` (lines 94-111): the
accumulator is seeded at `-1048576` (the device size is never added), explicit
sizes are ADDED to it, and the remainder entry is emitted as
`size={running*1024}K`, i.e. `running * 1048576` bytes. -/
def partSizesLegacy (efi : Bool) (W : ℤ) : ℤ → List PSize → Option (List (Option ℤ))
  | _, [] => some []
  | running, s :: rest =>
      match s with
      | .rest =>
          (partSizesLegacy efi W running rest).map
            (fun es => (if efi then none else some (running * 1048576)) :: es)
      | .pct p =>
          let ps : ℤ := pyRound ((W : ℚ) * (p / 100))
          (partSizesLegacy efi W (running + ps) rest).map (fun es => some ps :: es)
      | .abs tok =>
          match human_to_bytes tok with
          | none => none
          | some n =>
              (partSizesLegacy efi W (running + (n : ℤ)) rest).map
                (fun es => some (n : ℤ) :: es)

/-- Sizes emitted by `partition_drive` of `drive.py`. -/
def partition_sizes_legacy (efi : Bool) (W : ℤ) (sizes : List PSize) :
    Option (List (Option ℤ)) :=
  partSizesLegacy efi W (-1048576) sizes

/-- The sizing argument passed to `lvcreate` for one logical volume
(`format_drive`, lvm branch): `-l 100%FREE` for the `True` sentinel,
`-l <token>FREE` for a percentage token, `-L <token>` otherwise. -/
inductive LvArg where
  | freeAll : LvArg
  | freePct : ℚ → LvArg
  | bytes : String → LvArg
deriving DecidableEq

/-- Translation of an lv size field to its `lvcreate` argument. -/
def lvArgOf : PSize → LvArg
  | .rest => .freeAll
  | .pct p => .freePct p
  | .abs tok => .bytes tok

/-- The alphabet of external tool invocations issued by the partitioning and
formatting code, in one-to-one correspondence with the `execute(...)` call
sites of `installer.py` (`drive.py` / `common.py` have the same call sites). -/
inductive Cmd where
  /-- `umount -ql {drive}?*` -/
  | umountGlob : String → Cmd
  /-- `vgs | awk .. | grep -vw VG` -/
  | vgsQuery : Cmd
  /-- `vgchange -an {vg}` -/
  | vgchange : String → Cmd
  /-- `lsblk -bo SIZE {drive} | grep -v -m 1 SIZE` (inside `get_drive_size`) -/
  | sizeQuery : String → Cmd
  /-- `cat <<EOF | sfdisk -q --wipe always --force {drive}` with the generated
  GPT script: one `(size, type)` entry per layer -/
  | sfdiskApply : String → List (Option ℤ × String) → Cmd
  /-- `partprobe {drive}` -/
  | partprobe : String → Cmd
  /-- `lsblk -o NAME --list | grep -m 1 '{base}.'` (inside `format_drive`) -/
  | nameQuery : String → Cmd
  /-- `mkfs.vfat [-n LABEL] {dev}` -/
  | mkfsVfat : Option String → String → Cmd
  /-- `mkfs.ext4 -q [-L LABEL] {dev}` -/
  | mkfsExt4 : Option String → String → Cmd
  /-- `mkfs.btrfs -q -f [-L LABEL] {dev}` -/
  | mkfsBtrfs : Option String → String → Cmd
  /-- `mount {dev} /mnt/temp` -/
  | mountTmp : String → Cmd
  /-- `btrfs subvolume create /mnt/temp{subvolume}` -/
  | subvolCreate : String → Cmd
  /-- `umount {dev}` -/
  | umountDev : String → Cmd
  /-- `yes | pvcreate -ff -q {dev}` -/
  | pvcreate : String → Cmd
  /-- `vgcreate -ff -q {vg} {dev}` -/
  | vgcreate : String → String → Cmd
  /-- `lvcreate .. -n lv{i} {vg}` -/
  | lvcreate : LvArg → Nat → String → Cmd
  /-- `cryptsetup -q luksFormat {dev}` -/
  | cryptFormat : String → Cmd
  /-- `cryptsetup -q config {dev} --label {label}` -/
  | cryptLabel : String → String → Cmd
  /-- `cryptsetup luksOpen /dev/disk/by-label/{label} xenia` -/
  | cryptOpen : String → Cmd
deriving DecidableEq

/-- Response of the live system to one tool invocation: its exit status and
its captured standard output. -/
structure Resp where
  exitCode : Int
  stdout : String
deriving DecidableEq

/-- The live system, as an oracle from invocations to responses. -/
def Sys : Type := Cmd → Resp

/-- Embedding of `execute(command)` (`common.py` lines 40-47, `installer.py`
lines 36-41): the command's captured stdout is returned; the exit status of
the invoked command is never inspected.  (`PRETEND` is the constant `False`
in the sources, so the non-pretend branch is the one modelled.) -/
def execute (r : Resp) : String :=
  r.stdout

/-- The stdout each invocation yields under an oracle, as consumed through
`execute`. -/
def stdoutOf (sys : Sys) (c : Cmd) : String :=
  execute (sys c)

/-- Embedding of `get_drive_size(drive)` applied to the stripped stdout of its
`lsblk` query: `int(drive_size) if drive_size != "" else 0`.  The value is
`none` when `int(...)` raises on non-numeric non-empty output. -/
def get_drive_size (out : String) : Option Nat :=
  let ds := pyStrip out
  if ds ≠ "" then parseDecS ds else some 0

/-- Embedding of `check_drive_size(value)` (`common.py` lines 62-68,
`installer.py` lines 51-52) applied to the size-query stdout:
`get_drive_size(value) > 12884901888`. -/
def check_drive_size (out : String) : Option Bool :=
  (get_drive_size out).map (fun n => decide (12884901888 < n))

/-- The invocations `partition_drive` issues before it builds the sfdisk
script: the unmount, the VG enumeration, one `vgchange` per reported VG line,
and the size query of `get_drive_size`. -/
def partitionPre (out : Cmd → String) (drive : String) : List Cmd :=
  Cmd.umountGlob drive :: Cmd.vgsQuery ::
    (pySplitlines (out Cmd.vgsQuery)).map (fun l => Cmd.vgchange (pyStrip l)) ++
      [Cmd.sizeQuery drive]

/-- Trace semantics of `partition_drive(drive, layout)` (`installer.py` lines
157-191) over the stdout view of an oracle: the ordered invocation list and a
flag that is `false` exactly when the Python code raises (a non-numeric size
query or a `human_to_bytes` failure), in which case the partition-table write
is never issued. -/
def partitionTraceO (out : Cmd → String) (efi : Bool) (drive : String)
    (layout : List Layer) : List Cmd × Bool :=
  let pre := partitionPre out drive
  match get_drive_size (out (Cmd.sizeQuery drive)) with
  | none => (pre, false)
  | some W =>
      match partition_sizes efi (W : ℤ) (layout.map Layer.size) with
      | none => (pre, false)
      | some es =>
          (pre ++ [Cmd.sfdiskApply drive (es.zip (layout.map Layer.ptype)),
                   Cmd.partprobe drive], true)

/-- Trace of `partition_drive` under a system oracle.  The `efi` flag is the
result of `is_efi()` (presence of `/sys/firmware/efi`). -/
def partition_drive (sys : Sys) (efi : Bool) (drive : String)
    (layout : List Layer) : List Cmd × Bool :=
  partitionTraceO (stdoutOf sys) efi drive layout

/-- The prologue of `format_drive(drive, layout)` (`installer.py` lines
194-205): the partition device node is looked up ONCE via
`lsblk | grep -m 1`; when the stripped result is empty the function falls
back to using `drive` itself with no partition-number enumeration (the
`noNum` branch); otherwise the `-` characters are replaced with `/` and the
trailing character must parse as the first partition number (`none` models
the `ValueError` raised on a non-digit).  The result is the initial
`(noNum, name, number)` loop state. -/
def initState (out : Cmd → String) (drive : String) :
    Option (Bool × String × Nat) :=
  let q := pyStrip (out (Cmd.nameQuery drive))
  let name := "/dev/" ++ q
  if name = "/dev/" then some (true, drive, 0)
  else
    let name := replaceChar '-' '/' name
    match digitVal? ((name.data.getLast?).getD ' ') with
    | none => none
    | some d => some (false, name, d)

mutual

/-- Invocations issued for ONE layer of `format_drive`'s loop, with `cur` the
resolved device node of the layer; composite layers (`lvm`, `luks`) recurse
into `format_drive` (whose prologue `initState` is inlined here, see
`format_drive_eq`) after establishing the intermediate device.  A `luks`
layer without a `label` key raises `KeyError` (flag `false`) after its
`luksFormat` invocation has already run. -/
def formatLayer (out : Cmd → String) (cur : String) : Layer → List Cmd × Bool
  | Layer.mk _ lb f _ vg sv lvs inside =>
      match f with
      | .vfat => ([Cmd.mkfsVfat lb cur], true)
      | .ext4 => ([Cmd.mkfsExt4 lb cur], true)
      | .btrfs =>
          let svCmds := match sv with
            | none => []
            | some paths =>
                Cmd.mountTmp cur :: paths.map Cmd.subvolCreate ++
                  [Cmd.umountDev cur]
          (Cmd.mkfsBtrfs lb cur :: svCmds, true)
      | .lvm =>
          let lvCmds := (lvs.map Layer.size).enum.map
            (fun p => Cmd.lvcreate (lvArgOf p.2) p.1 vg)
          let childDrive := "/dev/mapper/" ++ vg ++ "-"
          let inner :=
            match initState out childDrive with
            | none => ([Cmd.nameQuery childDrive], false)
            | some (nn, nm, num) =>
                let r := format_go out nn nm num lvs
                (Cmd.nameQuery childDrive :: r.1, r.2)
          (Cmd.pvcreate cur :: Cmd.vgcreate vg cur :: (lvCmds ++ inner.1),
            inner.2)
      | .luks =>
          match lb with
          | none => ([Cmd.cryptFormat cur], false)
          | some label =>
              let inner :=
                match initState out "/dev/mapper/xenia" with
                | none => ([Cmd.nameQuery "/dev/mapper/xenia"], false)
                | some (nn, nm, num) =>
                    let r := format_go out nn nm num inside
                    (Cmd.nameQuery "/dev/mapper/xenia" :: r.1, r.2)
              (Cmd.cryptFormat cur :: Cmd.cryptLabel cur label ::
                Cmd.cryptOpen label :: inner.1, inner.2)
termination_by structural layer => layer

/-- The per-layer loop of `format_drive` (`installer.py` lines 207-249): at
each layer the current device node is `name[:-1] + str(number)` unless
`noNum`; an exception inside a layer (flag `false`) propagates and stops the
loop. -/
def format_go (out : Cmd → String) (noNum : Bool) (name : String)
    (number : Nat) : List Layer → List Cmd × Bool
  | [] => ([], true)
  | l :: rest =>
      let cur := if noNum then name else
        String.mk name.data.dropLast ++ Nat.repr number
      let next := if noNum then number else number + 1
      let r1 := formatLayer out cur l
      if r1.2 then
        let r := format_go out noNum cur next rest
        (r1.1 ++ r.1, r.2)
      else
        (r1.1, false)
termination_by structural layout => layout

end

/-- Trace semantics of `format_drive(drive, layout)` over the stdout view of
an oracle: the ordered invocation list and a flag that is `false` exactly when
the Python code raises. -/
def format_drive (out : Cmd → String) (drive : String) (layout : List Layer) :
    List Cmd × Bool :=
  match initState out drive with
  | none => ([Cmd.nameQuery drive], false)
  | some (nn, nm, num) =>
      let r := format_go out nn nm num layout
      (Cmd.nameQuery drive :: r.1, r.2)

/-- Trace of `format_drive` under a system oracle. -/
def format_trace (sys : Sys) (drive : String) (layout : List Layer) :
    List Cmd × Bool :=
  format_drive (stdoutOf sys) drive layout

/-- The `LAYOUTS["traditional"]` catalog entry of `drive.py` (lines 6-11). -/
def layoutTraditional : List Layer :=
  [Layer.mk (.abs "512M") (some "EFI") .vfat "uefi" "" none [] [],
   Layer.mk (.abs "8G") (some "ROOTS") .ext4 "linux" "" none [] [],
   Layer.mk (.pct 30) (some "OVERLAY") .ext4 "linux" "" none [] [],
   Layer.mk .rest (some "HOME") .ext4 "linux" "" none [] []]

/-- The EFI system-partition layer shared by every catalog layout. -/
def efiLayer : Layer :=
  Layer.mk (.abs "512M") (some "EFI") .vfat "uefi" "" none [] []

/-- The remainder-sized btrfs root layer of the `"btrfs"` catalog layout. -/
def rootsBtrfs : Layer :=
  Layer.mk .rest (some "ROOTS") .btrfs "linux" ""
    (some ["/home", "/overlay", "/overlay/etc", "/overlay/var", "/overlay/usr"])
    [] []

/-- The `LAYOUTS["btrfs"]` catalog entry (`drive.py` lines 26-41,
`installer.py` lines 104-119). -/
def layoutBtrfs : List Layer :=
  [efiLayer, rootsBtrfs]

/-- A layout violating the spec's layout-validation rules: its remainder-sized
layer is first rather than structurally last. -/
def layoutMisordered : List Layer :=
  [rootsBtrfs, efiLayer]

/-- A layout whose only layer carries the malformed absolute size token
`"10X"` (unknown unit letter `X`). -/
def layout10X : List Layer :=
  [Layer.mk (.abs "10X") (some "ROOTS") .ext4 "linux" "" none [] []]

/-- A btrfs layer whose subvolume list names the nested child `/overlay/etc`
BEFORE its parent `/overlay`. -/
def layerBadOrder : Layer :=
  Layer.mk .rest (some "ROOTS") .btrfs "linux" ""
    (some ["/overlay/etc", "/overlay"]) [] []

/-- An oracle on which every invocation exits with status 1 while producing
the stdout a healthy 20 GB `/dev/sda` system would produce. -/
def sysExit1 : Sys := fun c =>
  ⟨1, if c = Cmd.sizeQuery "/dev/sda" then "20000000000" else ""⟩

/-- The same stdout as `sysExit1`, with exit status 0 on every invocation. -/
def sysOk2 : Sys := fun c =>
  ⟨0, if c = Cmd.sizeQuery "/dev/sda" then "20000000000" else ""⟩

/-- An all-successful oracle for a 20 GB `/dev/sda` whose first partition
node reported by `lsblk` is `sda2`. -/
def sysOk : Sys := fun c =>
  ⟨0, if c = Cmd.sizeQuery "/dev/sda" then "20000000000"
      else if c = Cmd.nameQuery "/dev/sda" then "sda2\n" else ""⟩

/-- An oracle every invocation of which succeeds with empty stdout (the
shape produced by a device path that does not exist). -/
def sysEmpty : Sys := fun _ => ⟨0, ""⟩

/-- Device-node argument of a formatting invocation, when it has one. -/
def Cmd.devNode? : Cmd → Option String
  | .mkfsVfat _ d => some d
  | .mkfsExt4 _ d => some d
  | .mkfsBtrfs _ d => some d
  | .mountTmp d => some d
  | .umountDev d => some d
  | .pvcreate d => some d
  | .vgcreate _ d => some d
  | .cryptFormat d => some d
  | .cryptLabel d _ => some d
  | _ => none

/-- Recogniser for the partition-table write. -/
def Cmd.isSfdisk : Cmd → Bool
  | .sfdiskApply _ _ => true
  | _ => false

/-- Recogniser for the `format_drive` device lookup. -/
def Cmd.isNameQuery : Cmd → Bool
  | .nameQuery _ => true
  | _ => false

/-- The subvolume path of a `btrfs subvolume create` invocation. -/
def subvolOf : Cmd → Option String
  | .subvolCreate p => some p
  | _ => none

/-! ### Helper lemmas -/

theorem pyRound_intCast (n : ℤ) : pyRound (n : ℚ) = n := by
  unfold pyRound
  simp only [Int.floor_intCast, sub_self]
  rw [if_pos (by norm_num)]

theorem pyRound_nearest (x : ℚ) : |((pyRound x : ℤ) : ℚ) - x| ≤ 1 / 2 := by
  have h0 : (⌊x⌋ : ℚ) ≤ x := Int.floor_le x
  have h1 : x < ⌊x⌋ + 1 := Int.lt_floor_add_one x
  unfold pyRound
  split
  · rename_i h
    rw [abs_le]
    constructor <;> linarith
  · split
    · rename_i h h2
      rw [abs_le]
      rw [not_lt] at h
      constructor <;> (try push_cast) <;> linarith
    · rename_i h h2
      rw [not_lt] at h h2
      have hr : x - (⌊x⌋ : ℚ) = 1 / 2 := le_antisymm h2 h
      split <;> (rw [abs_le]; constructor <;> push_cast <;> linarith)

theorem partSizes_pct (efi : Bool) (W : ℤ) (sizes : List PSize) :
    ∀ (r : ℤ) (i : Nat) (p : ℚ) (es : List (Option ℤ)),
      sizes.get? i = some (PSize.pct p) →
      partSizes efi W r sizes = some es →
      es.get? i = some (some (pyRound ((W : ℚ) * (p / 100)))) := by
  induction sizes with
  | nil => intro r i p es hi _; simp at hi
  | cons s tl ih =>
    intro r i p es hi hes
    cases s with
    | rest =>
      rw [partSizes] at hes
      rcases Option.map_eq_some'.mp hes with ⟨es', hes', rfl⟩
      cases i with
      | zero => simp at hi
      | succ i =>
        simp only [List.get?_cons_succ] at hi ⊢
        exact ih _ i p es' hi hes'
    | pct q =>
      rw [partSizes] at hes
      rcases Option.map_eq_some'.mp hes with ⟨es', hes', rfl⟩
      cases i with
      | zero =>
        simp only [List.get?_cons_zero, Option.some_inj] at hi
        cases hi
        rfl
      | succ i =>
        simp only [List.get?_cons_succ] at hi ⊢
        exact ih _ i p es' hi hes'
    | abs tok =>
      rw [partSizes] at hes
      cases htok : human_to_bytes tok with
      | none => rw [htok] at hes; cases hes
      | some n =>
        rw [htok] at hes
        rcases Option.map_eq_some'.mp hes with ⟨es', hes', rfl⟩
        cases i with
        | zero => simp at hi
        | succ i =>
          simp only [List.get?_cons_succ] at hi ⊢
          exact ih _ i p es' hi hes'

theorem partSizesLegacy_pct (efi : Bool) (W : ℤ) (sizes : List PSize) :
    ∀ (r : ℤ) (i : Nat) (p : ℚ) (es : List (Option ℤ)),
      sizes.get? i = some (PSize.pct p) →
      partSizesLegacy efi W r sizes = some es →
      es.get? i = some (some (pyRound ((W : ℚ) * (p / 100)))) := by
  induction sizes with
  | nil => intro r i p es hi _; simp at hi
  | cons s tl ih =>
    intro r i p es hi hes
    cases s with
    | rest =>
      rw [partSizesLegacy] at hes
      rcases Option.map_eq_some'.mp hes with ⟨es', hes', rfl⟩
      cases i with
      | zero => simp at hi
      | succ i =>
        simp only [List.get?_cons_succ] at hi ⊢
        exact ih _ i p es' hi hes'
    | pct q =>
      rw [partSizesLegacy] at hes
      rcases Option.map_eq_some'.mp hes with ⟨es', hes', rfl⟩
      cases i with
      | zero =>
        simp only [List.get?_cons_zero, Option.some_inj] at hi
        cases hi
        rfl
      | succ i =>
        simp only [List.get?_cons_succ] at hi ⊢
        exact ih _ i p es' hi hes'
    | abs tok =>
      rw [partSizesLegacy] at hes
      cases htok : human_to_bytes tok with
      | none => rw [htok] at hes; cases hes
      | some n =>
        rw [htok] at hes
        rcases Option.map_eq_some'.mp hes with ⟨es', hes', rfl⟩
        cases i with
        | zero => simp at hi
        | succ i =>
          simp only [List.get?_cons_succ] at hi ⊢
          exact ih _ i p es' hi hes'

theorem partSizes_none_of_bad (efi : Bool) (W : ℤ) (sizes : List PSize) :
    ∀ (r : ℤ) (tok : String), PSize.abs tok ∈ sizes →
      human_to_bytes tok = none → partSizes efi W r sizes = none := by
  induction sizes with
  | nil => intro r tok h _; simp at h
  | cons s tl ih =>
    intro r tok hmem hbad
    rcases List.mem_cons.mp hmem with rfl | hmem'
    · rw [partSizes, hbad]
    · cases s with
      | rest => rw [partSizes, ih _ tok hmem' hbad]; rfl
      | pct q => rw [partSizes, ih _ tok hmem' hbad]; rfl
      | abs tok' =>
        cases htok : human_to_bytes tok' with
        | none => rw [partSizes, htok]
        | some n => simp only [partSizes, htok, ih _ tok hmem' hbad, Option.map_none']

theorem unitMult_of_mem (u : Char) (k : Nat)
    (h : (u, k) ∈ [('B', 0), ('K', 1), ('M', 2), ('G', 3), ('T', 4), ('P', 5)]) :
    unitMult u = some (1024 ^ k) := by
  fin_cases h <;> rfl

theorem parseDecGo_digits (ds : List Char) :
    ∀ acc : Nat, (∀ c ∈ ds, c.isDigit) →
      parseDecGo acc ds =
        some (acc * 10 ^ ds.length +
          Nat.ofDigits 10 ((ds.map (fun c => c.toNat - 48)).reverse)) := by
  induction ds with
  | nil => intro acc _; simp [parseDecGo, Nat.ofDigits]
  | cons c cs ih =>
    intro acc hd
    have hc : c.isDigit := hd c (List.mem_cons_self c cs)
    rw [parseDecGo, if_pos hc,
      ih _ (fun x hx => hd x (List.mem_cons_of_mem _ hx))]
    congr 1
    rw [List.map_cons, List.reverse_cons, Nat.ofDigits_append]
    simp only [List.length_reverse, List.length_map, List.length_cons,
      Nat.ofDigits_singleton]
    ring

theorem partitionPre_head (out : Cmd → String) (drive : String) :
    (partitionPre out drive).head? = some (Cmd.umountGlob drive) := rfl

theorem partitionPre_no_sfdisk (out : Cmd → String) (drive : String) :
    ∀ c ∈ partitionPre out drive, Cmd.isSfdisk c = false := by
  intro c hc
  rw [partitionPre] at hc
  rcases List.mem_cons.mp hc with rfl | hc
  · rfl
  rcases List.mem_cons.mp hc with rfl | hc
  · rfl
  rcases List.mem_append.mp hc with hc | hc
  · rcases List.mem_map.mp hc with ⟨l, _, rfl⟩
    rfl
  · rw [List.mem_singleton.mp hc]
    rfl

theorem partitionTraceO_eq_of_some (out : Cmd → String) (efi : Bool)
    (drive : String) (layout : List Layer) (W : Nat) (es : List (Option ℤ))
    (hW : get_drive_size (out (Cmd.sizeQuery drive)) = some W)
    (hes : partition_sizes efi (W : ℤ) (layout.map Layer.size) = some es) :
    partitionTraceO out efi drive layout =
      (partitionPre out drive ++
        [Cmd.sfdiskApply drive (es.zip (layout.map Layer.ptype)),
         Cmd.partprobe drive], true) := by
  unfold partitionTraceO
  rw [hW]
  dsimp only
  rw [hes]

theorem partitionTraceO_eq_of_bad (out : Cmd → String) (efi : Bool)
    (drive : String) (layout : List Layer) (tok : String)
    (hmem : PSize.abs tok ∈ layout.map Layer.size)
    (hbad : human_to_bytes tok = none) :
    partitionTraceO out efi drive layout = (partitionPre out drive, false) := by
  unfold partitionTraceO
  cases hW : get_drive_size (out (Cmd.sizeQuery drive)) with
  | none => rfl
  | some W =>
      dsimp only
      have hnone : partition_sizes efi (W : ℤ) (layout.map Layer.size) = none := by
        unfold partition_sizes
        exact partSizes_none_of_bad efi (W : ℤ) (layout.map Layer.size) _ tok
          hmem hbad
      rw [hnone]

theorem format_go_noNum_simple (out : Cmd → String) (name : String)
    (num : Nat) (layout : List Layer)
    (hsimple : ∀ l ∈ layout, l.fmt ≠ Fmt.lvm ∧ l.fmt ≠ Fmt.luks) :
    (format_go out true name num layout).2 = true ∧
    ∀ c ∈ (format_go out true name num layout).1,
      Cmd.isNameQuery c = false ∧
        (Cmd.devNode? c = none ∨ Cmd.devNode? c = some name) := by
  induction layout with
  | nil => exact ⟨rfl, by intro c hc; simp [format_go] at hc⟩
  | cons l tl ih =>
    obtain ⟨hl1, hl2⟩ := hsimple l (List.mem_cons_self l tl)
    obtain ⟨ihf, ihm⟩ := ih (fun x hx => hsimple x (List.mem_cons_of_mem _ hx))
    cases l with
    | mk sz lb f pt vg sv lvs inside =>
      cases f with
      | lvm => exact absurd rfl hl1
      | luks => exact absurd rfl hl2
      | vfat =>
          rw [format_go]
          dsimp only [formatLayer, if_pos rfl]
          refine ⟨ihf, ?_⟩
          intro c hc
          rcases List.mem_cons.mp hc with rfl | hc
          · exact ⟨rfl, Or.inr rfl⟩
          · exact ihm c hc
      | ext4 =>
          rw [format_go]
          dsimp only [formatLayer, if_pos rfl]
          refine ⟨ihf, ?_⟩
          intro c hc
          rcases List.mem_cons.mp hc with rfl | hc
          · exact ⟨rfl, Or.inr rfl⟩
          · exact ihm c hc
      | btrfs =>
          rw [format_go]
          dsimp only [formatLayer, if_pos rfl]
          refine ⟨ihf, ?_⟩
          intro c hc
          rcases List.mem_cons.mp hc with rfl | hc
          · exact ⟨rfl, Or.inr rfl⟩
          rcases List.mem_append.mp hc with hc | hc
          · cases sv with
            | none => simp at hc
            | some paths =>
                rcases List.mem_cons.mp hc with rfl | hc
                · exact ⟨rfl, Or.inr rfl⟩
                rcases List.mem_append.mp hc with hc | hc
                · rcases List.mem_map.mp hc with ⟨p, _, rfl⟩
                  exact ⟨rfl, Or.inl rfl⟩
                · rw [List.mem_singleton.mp hc]
                  exact ⟨rfl, Or.inr rfl⟩
          · exact ihm c hc

/-! ### Claim theorems -/

/-- C5: the claim states that the minimum-device-size check accepts a device
of exactly 12884901888 bytes and rejects one of 12884901887 bytes.  The code
(`check_drive_size`, `common.py` lines 62-68 and `installer.py` lines 51-52)
compares with strict `>`, so a device of exactly 12884901888 bytes is
REJECTED, contradicting both the claim and the repository's own unit test
`test_check_drive_size_boundary` (which asserts `True` "at exact boundary").
This theorem evaluates the embedded check at the boundary: it rejects the
exact boundary and the byte below it, and accepts only one byte above. -/
theorem min_size_boundary_rejected :
    check_drive_size "12884901888" = some false ∧
    check_drive_size "12884901887" = some false ∧
    check_drive_size "12884901889" = some true := by
  exact ⟨by decide, by decide, by decide⟩

/-- C8: for every well-formed absolute size token consisting of a decimal
integer (a non-empty string `ds` of decimal digits, whose value is the
standard base-10 interpretation `Nat.ofDigits 10` of its reversed digit
values) followed by one unit letter `u` in {B,K,M,G,T,P}, `human_to_bytes`
returns that integer times `1024 ^ k`, with `k` = 0,1,2,3,4,5 for
B,K,M,G,T,P respectively. -/
theorem human_to_bytes_correct (ds : List Char) (u : Char) (k : Nat)
    (hne : ds ≠ []) (hdig : ∀ c ∈ ds, c.isDigit)
    (hu : (u, k) ∈ [('B', 0), ('K', 1), ('M', 2), ('G', 3), ('T', 4), ('P', 5)]) :
    human_to_bytes ⟨ds ++ [u]⟩ =
      some (Nat.ofDigits 10 ((ds.map (fun c => c.toNat - 48)).reverse) * 1024 ^ k) := by
  have hset : (String.mk (ds ++ [u])).data = ds ++ [u] := rfl
  have hum : unitMult u = some (1024 ^ k) := unitMult_of_mem u k hu
  have hpd : parseDec ds =
      some (Nat.ofDigits 10 ((ds.map (fun c => c.toNat - 48)).reverse)) := by
    cases ds with
    | nil => exact absurd rfl hne
    | cons c cs =>
      rw [parseDec, parseDecGo_digits (c :: cs) 0 hdig]
      simp
  rw [human_to_bytes, hset, List.getLast?_concat, List.dropLast_concat]
  dsimp only
  rw [hpd, hum]

/-- Witness for C8 at the token `"512M"`. -/
theorem human_to_bytes_correct_witness :
    human_to_bytes ⟨['5', '1', '2'] ++ ['M']⟩ =
      some (Nat.ofDigits 10 ((['5', '1', '2'].map (fun c => c.toNat - 48)).reverse) *
        1024 ^ 2) :=
  human_to_bytes_correct ['5', '1', '2'] 'M' 2 (by decide) (by decide) (by decide)

/-- C9: a percentage layer resolves to `pyRound (W * p / 100)` — Python's
`round(drive_size * (pct / 100), 0)`, a nearest integer (ties to even) to
`W * p / 100` — computed against the original whole-device size `W`
regardless of the running allocation counter (`r`, `r2` arbitrary) and of
whatever the surrounding layers are, in both `installer.py`'s and
`drive.py`'s partition loops. -/
theorem pct_resolved_against_whole_device (efi : Bool) (W r r2 : ℤ)
    (sizes : List PSize) (i : Nat) (p : ℚ) (es es2 : List (Option ℤ))
    (hi : sizes.get? i = some (PSize.pct p))
    (hes : partSizes efi W r sizes = some es)
    (hes2 : partSizesLegacy efi W r2 sizes = some es2) :
    es.get? i = some (some (pyRound ((W : ℚ) * p / 100))) ∧
    es2.get? i = some (some (pyRound ((W : ℚ) * p / 100))) ∧
    |((pyRound ((W : ℚ) * p / 100) : ℤ) : ℚ) - (W : ℚ) * p / 100| ≤ 1 / 2 := by
  rw [mul_div_assoc]
  exact ⟨partSizes_pct efi W sizes r i p es hi hes,
    partSizesLegacy_pct efi W sizes r2 i p es2 hi hes2,
    pyRound_nearest _⟩

/-- C1: on legacy BIOS firmware the remainder-sized layer of the
"traditional" catalog layout, applied to a 20 GiB (21474836480-byte) device,
must be emitted with size `W - (sum of previously allocated siblings) - 1MiB`.
The `installer.py` / `legacy_installer.py` partition loop satisfies this
(first conjunct; 5904531456 = 21474836480 - 536870912 - 8589934592 -
6442450944 - 1048576, second conjunct).  The `drive.py` loop (lines 94-111)
instead seeds its running counter at `-1048576` WITHOUT the device size, ADDS
each sibling allocation, and multiplies by 1024 where its own comment says it
converts bytes to kibibytes; it therefore emits 16324449137590272 bytes
(≈ 16.3 EB) for the same layer (third conjunct), which differs from the
required value (fourth conjunct). -/
theorem remainder_size_drive_py_bug :
    partition_sizes false 21474836480 (layoutTraditional.map Layer.size) =
      some [some 536870912, some 8589934592, some 6442450944, some 5904531456] ∧
    (5904531456 : ℤ) =
      21474836480 - (536870912 + 8589934592 + 6442450944) - 1048576 ∧
    partition_sizes_legacy false 21474836480 (layoutTraditional.map Layer.size) =
      some [some 536870912, some 8589934592, some 6442450944,
        some 16324449137590272] ∧
    (16324449137590272 : ℤ) ≠
      21474836480 - (536870912 + 8589934592 + 6442450944) - 1048576 := by
  have hq : ((21474836480 : ℤ) : ℚ) * ((30 : ℚ) / 100) = ((6442450944 : ℤ) : ℚ) := by
    norm_num
  have hpr : pyRound (((21474836480 : ℤ) : ℚ) * ((30 : ℚ) / 100)) = 6442450944 := by
    rw [hq, pyRound_intCast]
  have h512 : human_to_bytes "512M" = some 536870912 := by decide
  have h8G : human_to_bytes "8G" = some 8589934592 := by decide
  refine ⟨?_, by norm_num, ?_, by norm_num⟩
  · simp only [layoutTraditional, List.map_cons, List.map_nil, Layer.size,
      partition_sizes, partSizes, h512, h8G, hpr, Option.map_some']
    norm_num
  · simp only [layoutTraditional, List.map_cons, List.map_nil, Layer.size,
      partition_sizes_legacy, partSizesLegacy, h512, h8G, hpr, Option.map_some']
    norm_num

/-- C2 counterexample: under an oracle on which EVERY invocation (including
the initial `umount`) exits with status 1, `partition_drive` still issues its
complete invocation sequence, ending in the partition-table write and
`partprobe`, and reports success — a non-zero exit status of an invoked
command does NOT cause the enclosing operation to fail, refuting the claim. -/
theorem nonzero_exit_continues_cex :
    (sysExit1 (Cmd.umountGlob "/dev/sda")).exitCode = 1 ∧
    (sysExit1 (Cmd.sfdiskApply "/dev/sda" [])).exitCode = 1 ∧
    partition_drive sysExit1 false "/dev/sda" layoutBtrfs =
      ([Cmd.umountGlob "/dev/sda", Cmd.vgsQuery, Cmd.sizeQuery "/dev/sda",
        Cmd.sfdiskApply "/dev/sda"
          [(some 536870912, "uefi"), (some 19462080512, "linux")],
        Cmd.partprobe "/dev/sda"], true) := by
  refine ⟨by decide, by decide, by decide⟩

/-- C2 amended: `execute` returns the captured stdout of an invocation and
never inspects its exit status, so the behaviour of the Partitioner and the
Formatter depends only on the stdout view of the system: two oracles agreeing
on stdout produce identical traces however their exit codes differ.  In
particular a non-zero exit never makes the enclosing operation fail. -/
theorem trace_ignores_exit_codes (sys1 sys2 : Sys)
    (h : ∀ c, (sys1 c).stdout = (sys2 c).stdout) (efi : Bool) (drive : String)
    (layout : List Layer) :
    partition_drive sys1 efi drive layout = partition_drive sys2 efi drive layout ∧
    format_trace sys1 drive layout = format_trace sys2 drive layout := by
  have hst : stdoutOf sys1 = stdoutOf sys2 := funext fun c => h c
  constructor
  · show partitionTraceO (stdoutOf sys1) efi drive layout =
      partitionTraceO (stdoutOf sys2) efi drive layout
    rw [hst]
  · show format_drive (stdoutOf sys1) drive layout =
      format_drive (stdoutOf sys2) drive layout
    rw [hst]

/-- Witness for C2: the all-failing oracle `sysExit1` and the all-succeeding
oracle `sysOk2` agree on stdout, so partitioning and formatting behave
identically under them. -/
theorem trace_ignores_exit_codes_witness :
    partition_drive sysExit1 false "/dev/sda" layoutBtrfs =
      partition_drive sysOk2 false "/dev/sda" layoutBtrfs ∧
    format_trace sysExit1 "/dev/sda" layoutBtrfs =
      format_trace sysOk2 "/dev/sda" layoutBtrfs :=
  trace_ignores_exit_codes sysExit1 sysOk2 (fun _ => rfl) false "/dev/sda"
    layoutBtrfs

/-- C3 counterexample: the repository contains no layout-validation operation
at all.  `layoutMisordered` violates the claimed validation rules (its
remainder-sized layer is not structurally last), so validation could not
succeed on it; yet `partition_drive` starts by issuing destructive commands
(the unmount is its very first invocation) and completes the partition-table
write, reporting success and never reporting any configuration error. -/
theorem destructive_without_validation_cex :
    (layoutMisordered.map Layer.size).get? 0 = some PSize.rest ∧
    layoutMisordered.length = 2 ∧
    partition_drive sysOk2 false "/dev/sda" layoutMisordered =
      ([Cmd.umountGlob "/dev/sda", Cmd.vgsQuery, Cmd.sizeQuery "/dev/sda",
        Cmd.sfdiskApply "/dev/sda"
          [(some 19998951424, "linux"), (some 536870912, "uefi")],
        Cmd.partprobe "/dev/sda"], true) :=
  ⟨by decide, by decide, by decide⟩

/-- C3 amended: no layout validation exists.  For EVERY layout whose size
tokens resolve, `partition_drive`'s first invocation is already the
destructive unmount, and the partition-table write is issued and the
operation reports success, regardless of whether the layout satisfies the
claimed validation rules (remainder placement, non-empty children, subvolume
paths, partition types); no configuration error is ever reported. -/
theorem no_validation_before_destructive (sys : Sys) (efi : Bool)
    (drive : String) (layout : List Layer) (W : Nat) (es : List (Option ℤ))
    (hW : get_drive_size (stdoutOf sys (Cmd.sizeQuery drive)) = some W)
    (hes : partition_sizes efi (W : ℤ) (layout.map Layer.size) = some es) :
    (partition_drive sys efi drive layout).1.head? =
      some (Cmd.umountGlob drive) ∧
    Cmd.sfdiskApply drive (es.zip (layout.map Layer.ptype)) ∈
      (partition_drive sys efi drive layout).1 ∧
    (partition_drive sys efi drive layout).2 = true := by
  have heq : partition_drive sys efi drive layout =
      (partitionPre (stdoutOf sys) drive ++
        [Cmd.sfdiskApply drive (es.zip (layout.map Layer.ptype)),
         Cmd.partprobe drive], true) :=
    partitionTraceO_eq_of_some (stdoutOf sys) efi drive layout W es hW hes
  rw [heq]
  refine ⟨?_, ?_, rfl⟩
  · rw [partitionPre]
    rfl
  · exact List.mem_append.mpr (Or.inr (List.mem_cons_self _ _))

/-- Witness for C3 at the misordered layout: partitioning proceeds
destructively and succeeds although validation of the layout must fail. -/
theorem no_validation_before_destructive_witness :
    (partition_drive sysOk2 false "/dev/sda" layoutMisordered).1.head? =
      some (Cmd.umountGlob "/dev/sda") ∧
    Cmd.sfdiskApply "/dev/sda"
        ([some 19998951424, some 536870912].zip
          (layoutMisordered.map Layer.ptype)) ∈
      (partition_drive sysOk2 false "/dev/sda" layoutMisordered).1 ∧
    (partition_drive sysOk2 false "/dev/sda" layoutMisordered).2 = true :=
  no_validation_before_destructive sysOk2 false "/dev/sda" layoutMisordered
    20000000000 [some 19998951424, some 536870912] (by decide) (by decide)

/-- C4 counterexample: when the expected partition node does not appear in
the (single) `lsblk` lookup — here every query returns empty output — the
resolution step does NOT fail with any DeviceNotFound-style error and there
is no retry: `format_drive` performs exactly one lookup, silently substitutes
the base device path `/dev/sda` for every layer's expected partition node,
formats the base device, and reports success. -/
theorem empty_lookup_substitutes_base_cex :
    pyStrip (stdoutOf sysEmpty (Cmd.nameQuery "/dev/sda")) = "" ∧
    format_trace sysEmpty "/dev/sda" layoutBtrfs =
      ([Cmd.nameQuery "/dev/sda",
        Cmd.mkfsVfat (some "EFI") "/dev/sda",
        Cmd.mkfsBtrfs (some "ROOTS") "/dev/sda",
        Cmd.mountTmp "/dev/sda",
        Cmd.subvolCreate "/home", Cmd.subvolCreate "/overlay",
        Cmd.subvolCreate "/overlay/etc", Cmd.subvolCreate "/overlay/var",
        Cmd.subvolCreate "/overlay/usr",
        Cmd.umountDev "/dev/sda"], true) :=
  ⟨by decide, by decide⟩

/-- C4 amended: the device lookup is a single query with no retry window and
no DeviceNotFound error.  When it returns empty output, `format_drive` falls
back to the passed-in base device path itself (the fallback intended for the
LUKS-inside case) and proceeds: for layouts of plain layers every device node
it formats IS the base device, and the operation reports success. -/
theorem lookup_fallback_formats_base_device (sys : Sys) (drive : String)
    (layout : List Layer)
    (h : pyStrip (stdoutOf sys (Cmd.nameQuery drive)) = "")
    (hsimple : ∀ l ∈ layout, l.fmt ≠ Fmt.lvm ∧ l.fmt ≠ Fmt.luks) :
    (format_trace sys drive layout).2 = true ∧
    (format_trace sys drive layout).1.filter Cmd.isNameQuery =
      [Cmd.nameQuery drive] ∧
    (format_trace sys drive layout).1.all
      (fun c => decide (Cmd.devNode? c = none ∨ Cmd.devNode? c = some drive)) =
      true := by
  obtain ⟨hf, hm⟩ := format_go_noNum_simple (stdoutOf sys) drive 0 layout hsimple
  have htr : format_trace sys drive layout =
      (Cmd.nameQuery drive :: (format_go (stdoutOf sys) true drive 0 layout).1,
        (format_go (stdoutOf sys) true drive 0 layout).2) := by
    unfold format_trace format_drive initState
    rw [h]
    rfl
  rw [htr]
  refine ⟨hf, ?_, ?_⟩
  · rw [List.filter_cons]
    have : Cmd.isNameQuery (Cmd.nameQuery drive) = true := rfl
    rw [this]
    simp only [if_pos trivial]
    have hnil : (format_go (stdoutOf sys) true drive 0 layout).1.filter
        Cmd.isNameQuery = [] := by
      rw [List.filter_eq_nil_iff]
      intro c hc
      rw [(hm c hc).1]
      simp
    rw [hnil]
  · rw [List.all_cons]
    have h1 : Cmd.devNode? (Cmd.nameQuery drive) = none ∨
        Cmd.devNode? (Cmd.nameQuery drive) = some drive := Or.inl rfl
    rw [decide_eq_true h1, Bool.true_and, List.all_eq_true]
    intro c hc
    exact decide_eq_true ((hm c hc).2)

/-- Witness for C4 on the btrfs catalog layout under the empty-output
oracle. -/
theorem lookup_fallback_formats_base_device_witness :
    (format_trace sysEmpty "/dev/sdb" layoutBtrfs).2 = true ∧
    (format_trace sysEmpty "/dev/sdb" layoutBtrfs).1.filter Cmd.isNameQuery =
      [Cmd.nameQuery "/dev/sdb"] ∧
    (format_trace sysEmpty "/dev/sdb" layoutBtrfs).1.all
      (fun c => decide (Cmd.devNode? c = none ∨
        Cmd.devNode? c = some "/dev/sdb")) = true :=
  lookup_fallback_formats_base_device sysEmpty "/dev/sdb" layoutBtrfs
    (by decide) (by decide)

/-- C6 counterexample: for a btrfs layer whose subvolume list names the
nested child `/overlay/etc` before its parent `/overlay`, the Formatter
issues the subvolume-create operations in exactly that input order — the
child's creation (position 3 of the trace) precedes the parent's
(position 4), refuting the claim that the parent is created first in any
input order. -/
theorem subvolume_order_follows_input_cex :
    format_trace sysOk "/dev/sda" [layerBadOrder] =
      ([Cmd.nameQuery "/dev/sda", Cmd.mkfsBtrfs (some "ROOTS") "/dev/sda2",
        Cmd.mountTmp "/dev/sda2", Cmd.subvolCreate "/overlay/etc",
        Cmd.subvolCreate "/overlay", Cmd.umountDev "/dev/sda2"], true) ∧
    (format_trace sysOk "/dev/sda" [layerBadOrder]).1.get? 3 =
      some (Cmd.subvolCreate "/overlay/etc") ∧
    (format_trace sysOk "/dev/sda" [layerBadOrder]).1.get? 4 =
      some (Cmd.subvolCreate "/overlay") :=
  ⟨by decide, by decide, by decide⟩

/-- C6 amended: the Formatter issues the subvolume-create operations of a
btrfs layer exactly in the order of the input list (`for subvolume in
partition["subvolumes"]`), with no sorting; a parent is created before a
nested child if and only if the input lists it first — as the built-in
catalog layouts happen to do. -/
theorem subvolumes_in_input_order (sys : Sys) (drive : String) (l : Layer)
    (svs : List String) (hfmt : l.fmt = Fmt.btrfs) (hsv : l.subvols = some svs)
    (hok : (format_trace sys drive [l]).2 = true) :
    (format_trace sys drive [l]).1.filterMap subvolOf = svs := by
  cases l with
  | mk sz lb f pt vg sv lvs inside =>
    cases hfmt
    cases hsv
    have hid : ∀ L : List String,
        List.filterMap (subvolOf ∘ Cmd.subvolCreate) L = L := by
      intro L
      induction L with
      | nil => rfl
      | cons a as ih => simp [subvolOf, Function.comp, ih]
    unfold format_trace format_drive at hok ⊢
    cases hinit : initState (stdoutOf sys) drive with
    | none =>
        rw [hinit] at hok
        exact Bool.noConfusion hok
    | some st =>
        obtain ⟨nn, nm, num⟩ := st
        dsimp only [format_go, formatLayer]
        simp [subvolOf, List.filterMap_cons, List.filterMap_append,
          List.filterMap_map, Function.comp, hid]

/-- Witness for C6 on the catalog btrfs root layer, whose subvolume list is
already topologically ordered. -/
theorem subvolumes_in_input_order_witness :
    (format_trace sysOk "/dev/sda" [rootsBtrfs]).1.filterMap subvolOf =
      ["/home", "/overlay", "/overlay/etc", "/overlay/var", "/overlay/usr"] :=
  subvolumes_in_input_order sysOk "/dev/sda" rootsBtrfs
    ["/home", "/overlay", "/overlay/etc", "/overlay/var", "/overlay/usr"]
    rfl rfl (by decide)

/-- C7 counterexample: partitioning with the malformed token `"10X"` aborts
(the token is rejected and the partition-table write is never issued), but
only AFTER three external tool invocations — the unmount, the VG query and
the size query — have already been made, refuting "no side effects at
all". -/
theorem malformed_token_invocations_cex :
    human_to_bytes "10X" = none ∧
    partition_drive sysOk2 false "/dev/sda" layout10X =
      ([Cmd.umountGlob "/dev/sda", Cmd.vgsQuery, Cmd.sizeQuery "/dev/sda"],
        false) :=
  ⟨by decide, by decide⟩

/-- C7 amended: a layout containing an absolute token that `human_to_bytes`
rejects makes `partition_drive` raise before the partition-table write — the
trace never contains an sfdisk invocation — but the unmount (the first
invocation), the VG enumeration/deactivation and the size query have already
been issued by then. -/
theorem malformed_token_aborts_before_write (sys : Sys) (efi : Bool)
    (drive : String) (layout : List Layer) (tok : String)
    (hmem : PSize.abs tok ∈ layout.map Layer.size)
    (hbad : human_to_bytes tok = none) :
    partition_drive sys efi drive layout =
      (partitionPre (stdoutOf sys) drive, false) ∧
    (∀ c ∈ (partition_drive sys efi drive layout).1, Cmd.isSfdisk c = false) ∧
    (partition_drive sys efi drive layout).1.head? =
      some (Cmd.umountGlob drive) := by
  have heq : partition_drive sys efi drive layout =
      (partitionPre (stdoutOf sys) drive, false) :=
    partitionTraceO_eq_of_bad (stdoutOf sys) efi drive layout tok hmem hbad
  rw [heq]
  exact ⟨rfl, partitionPre_no_sfdisk (stdoutOf sys) drive,
    partitionPre_head (stdoutOf sys) drive⟩

/-- Witness for C7 at the layout containing `"10X"`. -/
theorem malformed_token_aborts_before_write_witness :
    partition_drive sysOk2 false "/dev/sda" layout10X =
      (partitionPre (stdoutOf sysOk2) "/dev/sda", false) ∧
    (partition_drive sysOk2 false "/dev/sda" layout10X).1.head? =
      some (Cmd.umountGlob "/dev/sda") :=
  ⟨(malformed_token_aborts_before_write sysOk2 false "/dev/sda" layout10X
      "10X" (by decide) (by decide)).1,
   (malformed_token_aborts_before_write sysOk2 false "/dev/sda" layout10X
      "10X" (by decide) (by decide)).2.2⟩

/-- C10: `get_drive_size` maps empty size-query output to 0 without raising;
the minimum-size check consequently classifies such a device as too small;
and `partition_drive` on a device whose size query returns empty output
completes without any error, computing every percentage allocation against a
device size of 0 (each resolves to 0 bytes) and the remainder against the
same zero base. -/
theorem empty_size_query_yields_zero (sys : Sys) (efi : Bool) (drive : String)
    (layout : List Layer) (es : List (Option ℤ))
    (h0 : stdoutOf sys (Cmd.sizeQuery drive) = "")
    (hes : partition_sizes efi ((0 : Nat) : ℤ) (layout.map Layer.size) = some es) :
    get_drive_size "" = some 0 ∧
    check_drive_size "" = some false ∧
    partition_drive sys efi drive layout =
      (partitionPre (stdoutOf sys) drive ++
        [Cmd.sfdiskApply drive (es.zip (layout.map Layer.ptype)),
         Cmd.partprobe drive], true) ∧
    ∀ i p, (layout.map Layer.size).get? i = some (PSize.pct p) →
      es.get? i = some (some 0) := by
  have hW : get_drive_size (stdoutOf sys (Cmd.sizeQuery drive)) = some 0 := by
    rw [h0]
    decide
  refine ⟨by decide, by decide,
    partitionTraceO_eq_of_some (stdoutOf sys) efi drive layout 0 es hW hes, ?_⟩
  intro i p hip
  have hz : pyRound ((((0 : Nat) : ℤ) : ℚ) * (p / 100)) = 0 := by
    have h1 : ((((0 : Nat) : ℤ) : ℚ) * (p / 100)) = (((0 : ℤ) : ℚ)) := by
      push_cast
      ring
    rw [h1, pyRound_intCast]
  have := partSizes_pct efi ((0 : Nat) : ℤ) (layout.map Layer.size)
    (((0 : Nat) : ℤ) - 1048576) i p es hip hes
  rw [hz] at this
  exact this

/-- Witness for C10: the btrfs catalog layout, EFI firmware, empty size
output. -/
theorem empty_size_query_yields_zero_witness :
    get_drive_size "" = some 0 ∧
    check_drive_size "" = some false ∧
    partition_drive sysEmpty true "/dev/sda" layoutBtrfs =
      (partitionPre (stdoutOf sysEmpty) "/dev/sda" ++
        [Cmd.sfdiskApply "/dev/sda"
          ([some 536870912, none].zip (layoutBtrfs.map Layer.ptype)),
         Cmd.partprobe "/dev/sda"], true) := by
  have h := empty_size_query_yields_zero sysEmpty true "/dev/sda" layoutBtrfs
    [some 536870912, none] rfl (by decide)
  exact ⟨h.1, h.2.1, h.2.2.1⟩

/-- Witness for C9: a 30% layer preceded by an absolute 512M layer, on a
1000-byte device, with two different running counters. -/
theorem pct_resolved_witness :
    [some ((536870912 : ℕ) : ℤ),
        some (pyRound (((1000 : ℤ) : ℚ) * ((30 : ℚ) / 100)))].get? 1 =
      some (some (pyRound (((1000 : ℤ) : ℚ) * (30 : ℚ) / 100))) ∧
    [some ((536870912 : ℕ) : ℤ),
        some (pyRound (((1000 : ℤ) : ℚ) * ((30 : ℚ) / 100)))].get? 1 =
      some (some (pyRound (((1000 : ℤ) : ℚ) * (30 : ℚ) / 100))) ∧
    |((pyRound (((1000 : ℤ) : ℚ) * (30 : ℚ) / 100) : ℤ) : ℚ) -
        ((1000 : ℤ) : ℚ) * (30 : ℚ) / 100| ≤ 1 / 2 :=
  pct_resolved_against_whole_device false 1000 7 (-9) [.abs "512M", .pct 30] 1 30
    _ _ rfl rfl rfl

end Regicide
